import Mathlib

/-!
Verification development for the anymobile-print-helper repository
(src-tauri/src: printer.rs, server.rs, cert_manager.rs).

The Rust sources are shallowly embedded as executable Lean functions.
External effects (spawned processes, filesystem reads, Win32/FFI calls,
serde parses) are passed in as explicit environment values, and each
embedded function reproduces the source's control flow and data flow over
those values.  String manipulation mirrors the Rust std string operations,
implemented here by structural recursion over character lists so that all
definitions evaluate inside the kernel.
-/

/-! ## String primitives (models of Rust std string operations) -/

/-- Model of Rust `str::starts_with` on character lists. -/
def listStartsWith : List Char → List Char → Bool
  | _, [] => true
  | [], _ :: _ => false
  | c :: cs, p :: ps => c == p && listStartsWith cs ps

/-- Model of Rust `str::contains` (contiguous substring test) on character lists. -/
def listContains (s pat : List Char) : Bool :=
  match s with
  | [] => listStartsWith [] pat
  | _ :: rest => listStartsWith s pat || listContains rest pat

/-- Split a character list at every occurrence of a separator character. -/
def splitCharList (sep : Char) : List Char → List (List Char)
  | [] => [[]]
  | c :: cs =>
    let r := splitCharList sep cs
    if c == sep then [] :: r
    else
      match r with
      | [] => [[c]]
      | h :: t => (c :: h) :: t

/-- Split a character list at every character satisfying the predicate. -/
def splitPredList (p : Char → Bool) : List Char → List (List Char)
  | [] => [[]]
  | c :: cs =>
    let r := splitPredList p cs
    if p c then [] :: r
    else
      match r with
      | [] => [[c]]
      | h :: t => (c :: h) :: t

/-- Drop leading whitespace characters. -/
def dropLeadingWs : List Char → List Char
  | [] => []
  | c :: cs => if c.isWhitespace then dropLeadingWs cs else c :: cs

/-- Model of Rust `str::trim`: drop leading and trailing whitespace. -/
def rust_trim (s : String) : String :=
  ⟨((dropLeadingWs ((dropLeadingWs s.toList).reverse)).reverse)⟩

/-- Model of Rust `str::starts_with`. -/
def rust_starts_with (s pat : String) : Bool :=
  listStartsWith s.toList pat.toList

/-- Model of Rust `str::contains`. -/
def rust_contains (s pat : String) : Bool :=
  listContains s.toList pat.toList

/-- Model of Rust `str::to_lowercase` (ASCII-faithful, which covers all uses here). -/
def rust_to_lowercase (s : String) : String :=
  ⟨s.toList.map Char.toLower⟩

/-- Model of Rust `str::lines`: split at newlines, drop one trailing empty piece,
strip a trailing carriage return from each line. -/
def rust_lines (s : String) : List String :=
  let pieces := splitCharList '\n' s.toList
  let pieces :=
    match pieces.getLast? with
    | some [] => pieces.dropLast
    | _ => pieces
  pieces.map (fun l => ⟨if l.getLast? == some '\r' then l.dropLast else l⟩)

/-- Model of Rust `str::split_whitespace`: maximal runs of non-whitespace. -/
def rust_split_whitespace (s : String) : List String :=
  ((splitPredList Char.isWhitespace s.toList).filter (fun l => !l.isEmpty)).map (⟨·⟩)

/-- One fuel-indexed step list for Rust `str::replace` (all non-overlapping
occurrences, left to right); fuel ≥ length of the subject suffices. -/
def replaceFuel (pat rep : List Char) : Nat → List Char → List Char
  | 0, s => s
  | _ + 1, [] => []
  | fuel + 1, c :: rest =>
    if listStartsWith (c :: rest) pat && !pat.isEmpty then
      rep ++ replaceFuel pat rep fuel (List.drop (pat.length - 1) rest)
    else
      c :: replaceFuel pat rep fuel rest

/-- Model of Rust `str::replace`. -/
def rust_replace (s pat rep : String) : String :=
  ⟨replaceFuel pat.toList rep.toList s.toList.length s.toList⟩

/-- Accumulate decimal digits into a number. -/
def digitsToNat (cs : List Char) : Nat :=
  cs.foldl (fun n c => n * 10 + (c.toNat - 48)) 0

/-- Model of Rust `"...".parse::<u32>()`: optional leading plus sign, then one
or more decimal digits, rejecting values above `u32::MAX`.  `none` models
`Err(ParseIntError)` (which `handle_print` discards with `.ok()`). -/
def rust_parse_u32 (s : String) : Option Nat :=
  let cs :=
    match s.toList with
    | '+' :: rest => rest
    | cs => cs
  if cs.isEmpty || !(cs.all Char.isDigit) then none
  else
    let n := digitsToNat cs
    if n ≤ 4294967295 then some n else none

/-! ## Common environment types

`CmdResult` is the observable outcome of a spawned external process
(`std::process::Command::output()`): its exit status and captured streams.
An `Except String CmdResult` input models the whole spawn: `.error` is the
io::Error from a failed spawn (propagated by `?` in the sources), `.ok` a
process that ran to completion. -/

structure CmdResult where
  success : Bool
  stdout : String
  stderr : String
deriving Repr, DecidableEq

/-! ## server.rs — data model -/

/-- `PrinterInfo` (server.rs): one printer descriptor. -/
structure PrinterInfo where
  name : String
  is_default : Bool
  status : String
deriving Repr, DecidableEq

/-- `PrintResponse` (server.rs): the JSON body of a `/print` response. -/
structure PrintResponse where
  success : Bool
  error : Option String
  jobId : Option String
deriving Repr, DecidableEq

/-- `PrintOptions` (server.rs): optional text fields of the multipart body. -/
structure PrintOptions where
  printer : Option String := none
  copies : Option Nat := none
deriving Repr, DecidableEq

/-! ## server.rs — get_or_create_certificate -/

/-- The on-disk state `get_or_create_certificate` observes: whether each file
exists, and the outcome of `fs::read` on it (`.error` models an io error). -/
structure CertDisk where
  certExists : Bool
  keyExists : Bool
  certRead : Except Unit String
  keyRead : Except Unit String

/-- The subject-alt-names requested from `generate_simple_self_signed`
(server.rs lines 97-100). -/
def certificate_subject_alt_names : List String :=
  ["localhost", "127.0.0.1"]

/-- Model of `Vec::is_empty` on file contents. -/
def bytes_is_empty (s : String) : Bool :=
  s.toList.isEmpty

/-- `get_or_create_certificate` (server.rs): load the stored bundle when both
files exist, both reads succeed and both contents are non-empty; otherwise
fall through to generation.  `gen` is the outcome of
`generate_simple_self_signed` serialized to PEM (persisting the fresh pair is
non-fatal and does not affect the returned value). -/
def get_or_create_certificate (disk : CertDisk)
    (gen : Except String (String × String)) : Except String (String × String) :=
  if disk.certExists && disk.keyExists then
    match disk.certRead, disk.keyRead with
    | .ok cert_pem, .ok key_pem =>
      if !bytes_is_empty cert_pem && !bytes_is_empty key_pem then
        .ok (cert_pem, key_pem)
      else gen
    | _, _ => gen
  else gen

/-- Modelled from the spec: the spec calls a stored certificate file
"well-formed" when it is non-empty and PEM-framed; src/server.rs contains no
PEM check, so the framing predicate is taken from the spec's words
("PEM-framed"): the content carries a `-----BEGIN` armor header. -/
def spec_pem_framed (content : String) : Bool :=
  rust_contains content "-----BEGIN"

/-- Modelled from the spec: "well-formed" bundle file = non-empty and PEM-framed. -/
def spec_well_formed (content : String) : Bool :=
  !bytes_is_empty content && spec_pem_framed content

/-! ## server.rs — handle_print -/

/-- One multipart field as the handler observes it: its name
(`field.name().unwrap_or_default()`), the outcome of `field.bytes()` (used
only for the `pdf` field; `.error` carries the multipart error text), and the
outcome of `field.text()` (used only for `printer`/`copies`; `none` models a
failed read, which those arms silently ignore). -/
structure MPField where
  name : String
  bytesResult : Except String String
  textResult : Option String

/-- A multipart body as the `while let` loop observes it: the fields pulled
successfully in order, then optionally a `next_field()` error that ended the
loop (`none` = the stream ended cleanly). -/
structure MultipartBody where
  fields : List MPField
  trailingErr : Option String

/-- One iteration of the field loop in `handle_print` (server.rs lines
213-239): state is the pair (pdf_data, options). -/
def handle_print_field (st : Option String × PrintOptions) (f : MPField) :
    Except (Nat × PrintResponse) (Option String × PrintOptions) :=
  if f.name == "pdf" then
    match f.bytesResult with
    | .ok b => .ok (some b, st.2)
    | .error e =>
      .error (400, ⟨false, some ("Failed to read PDF data: " ++ e), none⟩)
  else if f.name == "printer" then
    match f.textResult with
    | some t => .ok (st.1, { st.2 with printer := some t })
    | none => .ok st
  else if f.name == "copies" then
    match f.textResult with
    | some t => .ok (st.1, { st.2 with copies := rust_parse_u32 t })
    | none => .ok st
  else .ok st

/-- The multipart-parsing phase of `handle_print`: run the field loop, then
surface a `next_field()` failure as the 400 "Failed to parse form data"
response. -/
def parse_print_request (body : MultipartBody) :
    Except (Nat × PrintResponse) (Option String × PrintOptions) :=
  match body.fields.foldlM handle_print_field (none, {}) with
  | .error r => .error r
  | .ok st =>
    match body.trailingErr with
    | some e =>
      .error (400, ⟨false, some ("Failed to parse form data: " ++ e), none⟩)
    | none => .ok st

/-- The copy-count argument `handle_print` hands to `printer::print_pdf`:
literally `options.copies.unwrap_or(1)` (server.rs line 255). -/
def copies_arg (o : PrintOptions) : Nat :=
  o.copies.getD 1

/-- `handle_print` (server.rs): parse the multipart body, require the `pdf`
field, dispatch to `printer::print_pdf`, and shape the HTTP status and JSON
body.  `print_pdf` is the dispatch engine, passed in as a function of the pdf
bytes, the optional printer name and the copy count; its `.ok` value is the
generated job id. -/
def handle_print (body : MultipartBody)
    (print_pdf : String → Option String → Nat → Except String String) :
    Nat × PrintResponse :=
  match parse_print_request body with
  | .error r => r
  | .ok (none, _) => (400, ⟨false, some "No PDF data provided", none⟩)
  | .ok (some pdf_data, options) =>
    match print_pdf pdf_data options.printer (copies_arg options) with
    | .ok job_id => (200, ⟨true, none, some job_id⟩)
    | .error e => (500, ⟨false, some e, none⟩)

/-! ## printer.rs — printer enumeration -/

/-- The shape serde deserializes one PowerShell `Get-Printer` JSON entry into
(printer.rs `WinPrinter`). -/
structure WinPrinter where
  Name : String
  Default : Option Bool
  PrinterStatus : Option Nat
deriving Repr, DecidableEq

/-- The per-entry mapping from a deserialized `WinPrinter` to a
`PrinterInfo` (printer.rs lines 104-112 and 123-130): default flag defaults
to false, vendor status 0 is "ready", 1 is "busy", anything else "unknown". -/
def win_printer_to_info (p : WinPrinter) : PrinterInfo :=
  { name := p.Name
    is_default := p.Default.getD false
    status :=
      if p.PrinterStatus.getD 0 == 0 then "ready"
      else if p.PrinterStatus.getD 0 == 1 then "busy"
      else "unknown" }

/-- Environment for `list_printers_windows`: the PowerShell spawn outcome and
the serde parse outcomes for the two JSON shapes (array / single object);
`unwrap_or_default` on a failed array parse and `if let Ok` on a failed
object parse both yield the empty result. -/
structure WinEnumEnv where
  cmd : Except String CmdResult
  parsedArray : Option (List WinPrinter)
  parsedObject : Option WinPrinter

/-- `list_printers_windows` (printer.rs lines 71-140): spawn failure
propagates (the `?` on `output()`); a non-success exit yields `Ok(vec![])`;
otherwise the stdout is parsed as a JSON array or single object of printers
and mapped to descriptors. -/
def list_printers_windows (env : WinEnumEnv) : Except String (List PrinterInfo) :=
  match env.cmd with
  | .error e => .error e
  | .ok out =>
    if !out.success then .ok []
    else
      let json_str := out.stdout
      if rust_starts_with (rust_trim json_str) "[" then
        .ok ((env.parsedArray.getD []).map win_printer_to_info)
      else if rust_starts_with (rust_trim json_str) "\x7b" then
        match env.parsedObject with
        | some p => .ok [win_printer_to_info p]
        | none => .ok []
      else .ok []

/-- State of the `lpstat` output scan in `list_printers_unix`: the printers
collected so far and the `default_printer` name seen last. -/
structure LpstatScan where
  printers : List PrinterInfo
  default_printer : String

/-- One line of the `lpstat -p -d` scan (printer.rs lines 833-857): a
"printer " line appends a descriptor (never default yet, status from the
idle/printing words); a "system default destination:" line records the
default name. -/
def lpstat_step (st : LpstatScan) (line : String) : LpstatScan :=
  if rust_starts_with line "printer " then
    if (rust_split_whitespace line).length ≥ 2 then
      { st with printers := st.printers ++
          [⟨(rust_split_whitespace line).getD 1 "",
            false,
            if rust_contains line "idle" then "ready"
            else if rust_contains line "printing" then "busy"
            else "unknown"⟩] }
    else st
  else if rust_starts_with line "system default destination:" then
    { st with default_printer :=
        rust_trim (rust_replace line "system default destination:" "") }
  else st

/-- The post-scan marking pass (printer.rs lines 860-864): a printer whose
name equals the recorded default destination gets `is_default := true`. -/
def mark_default (d : String) (p : PrinterInfo) : PrinterInfo :=
  if p.name == d then { p with is_default := true } else p

/-- `list_printers_unix` (printer.rs lines 820-867): spawn failure propagates
(the `?` on `output()`); a non-success exit yields `Ok(vec![])`; otherwise
the stdout lines are scanned and the default printer marked. -/
def list_printers_unix (cmd : Except String CmdResult) :
    Except String (List PrinterInfo) :=
  match cmd with
  | .error e => .error e
  | .ok out =>
    if !out.success then .ok []
    else
      let scan := (rust_lines out.stdout).foldl lpstat_step ⟨[], ""⟩
      .ok (scan.printers.map (mark_default scan.default_printer))

/-! ## printer.rs — Unix print path -/

/-- The `lp` argument list built by `print_pdf_unix` (printer.rs lines
869-915): base scaling options, then for a named printer exactly one
vendor-selected quality group (Epson checked first, then HP/LaserJet, else
generic) followed by the destination, and finally the pdf path. -/
def print_pdf_unix_args (pdf_path : String) (printer_name : Option String)
    (copies : Nat) : List String :=
  let args := ["-n", toString copies, "-o", "fit-to-page=false", "-o", "scaling=100"]
  let args :=
    match printer_name with
    | some printer =>
      let printer_lower := rust_to_lowercase printer
      let args :=
        if rust_contains printer_lower "epson" then
          args ++ ["-o", "Resolution=1200x1200dpi",
                   "-o", "EPIJ_Qual=307", "-o", "EPIJ_Medi=12"]
        else if rust_contains printer_lower "hp"
            || rust_contains printer_lower "laserjet" then
          args ++ ["-o", "MediaType=labels"]
        else
          args ++ ["-o", "print-quality=5"]
      args ++ ["-d", printer]
    | none => args
  args ++ [pdf_path]

/-! ## printer.rs — Windows print paths -/

/-- The DEVMODE field mutation of `print_image_with_devmode` Step 4
(printer.rs lines 498-533), on the named fields the raw offset writes hit:
or the four flag bits into dmFields, write the copy count (cast to i16),
600 DPI quality and Y-resolution, and media type 258.  These are plain
in-memory writes: the mutation step cannot fail. -/
structure Devmode where
  dmFields : Nat
  dmCopies : Int
  dmPrintQuality : Int
  dmYResolution : Int
  dmMediaType : Nat
deriving Repr, DecidableEq

/-- `copies as i16`: Rust numeric cast of a u32 into a signed 16-bit value. -/
def i16_cast (n : Nat) : Int :=
  let m := n % 65536
  if m < 32768 then (m : Int) else (m : Int) - 65536

/-- Step 4 of `print_image_with_devmode`: the DEVMODE mutation. -/
def mutate_devmode (d : Devmode) (copies : Nat) : Devmode :=
  { d with
    dmFields := d.dmFields ||| (0x0400 ||| 0x2000 ||| 0x08000000 ||| 0x0100)
    dmCopies := i16_cast copies
    dmPrintQuality := 600
    dmYResolution := 600
    dmMediaType := 258 }

/-- Environment for `print_image_with_devmode`: the outcome of each external
call the function branches on, in program order.  `fetchedDevmode` is the
profile the Step 3 `DocumentPropertiesW(DM_OUT_BUFFER)` call filled in;
`validateResult` is the return value of the Step 5
`DocumentPropertiesW(DM_IN_BUFFER|DM_OUT_BUFFER)` merge call, which the
source only logs, and `driverMerge` is whatever in-place rewrite that call
performs on the buffer (the driver may clamp values). -/
structure DevmodeEnv where
  imageOpen : Except String Unit
  openPrinterOk : Bool
  devmodeSize : Int
  getDevmodeResult : Int
  fetchedDevmode : Devmode
  validateResult : Int
  driverMerge : Devmode → Devmode
  createDCOk : Bool
  startDocResult : Int
  startPageResult : Int
  stretchResult : Int

/-- `print_image_with_devmode` (printer.rs lines 409-688), control flow over
the environment: image load, printer open, DEVMODE size query and fetch each
abort on failure; the Step 4 mutation is infallible; the Step 5 validation
result is logged and never branched on (though the call may rewrite the
buffer); then DC creation, document, page and blit each abort on failure.
The Rust function returns `Ok(())`; the embedding exposes as the `.ok` value
its observable effect, the profile the buffer holds when it is handed to
`CreateDCW`. -/
def print_image_with_devmode (printer_name : String) (copies : Nat)
    (env : DevmodeEnv) : Except String Devmode :=
  match env.imageOpen with
  | .error e => .error e
  | .ok _ =>
    if !env.openPrinterOk then
      .error ("Failed to open printer: " ++ printer_name)
    else if env.devmodeSize ≤ 0 then
      .error "Failed to get DEVMODE size"
    else if env.getDevmodeResult < 0 then
      .error "Failed to get DEVMODE"
    else
      let dm := env.driverMerge (mutate_devmode env.fetchedDevmode copies)
      if !env.createDCOk then
        .error "Failed to create printer DC with DEVMODE"
      else if env.startDocResult ≤ 0 then
        .error "Failed to start print job"
      else if env.startPageResult ≤ 0 then
        .error "Failed to start page"
      else if env.stretchResult == 0 then
        .error "StretchDIBits failed"
      else .ok dm

/-- Environment for `render_pdf_to_png` (printer.rs lines 364-404): the
Ghostscript process outcome and whether the PNG appeared. -/
structure RenderEnv where
  gsRun : Except String CmdResult
  pngExists : Bool

/-- `render_pdf_to_png`: spawn failure propagates; a non-success exit or a
missing output file is an error. -/
def render_pdf_to_png (env : RenderEnv) : Except String Unit :=
  match env.gsRun with
  | .error e => .error e
  | .ok out =>
    if !out.success then
      .error ("Ghostscript render failed: " ++ out.stderr)
    else if !env.pngExists then
      .error "Ghostscript did not create PNG output"
    else .ok ()

/-- Environment for `print_pdf_ghostscript` (printer.rs lines 694-738): the
default-printer PowerShell query (used only when no printer is named), the
render step, and the DEVMODE print step. -/
structure GsEnv where
  defaultPrinterQuery : Except String String
  render : RenderEnv
  devmode : DevmodeEnv

/-- `print_pdf_ghostscript`: resolve the target printer (spawn failure of the
default-printer query propagates), render the PDF to PNG, then print the PNG
with the custom DEVMODE; the temp-PNG cleanup failure is only logged. -/
def print_pdf_ghostscript (printer_name : Option String) (copies : Nat)
    (env : GsEnv) : Except String Unit :=
  match
    (match printer_name with
     | some n => Except.ok n
     | none => env.defaultPrinterQuery.map rust_trim) with
  | .error e => .error e
  | .ok printer =>
    match render_pdf_to_png env.render with
    | .error e => .error e
    | .ok _ =>
      match print_image_with_devmode printer copies env.devmode with
      | .error e => .error e
      | .ok _ => .ok ()

/-- Environment for `print_pdf_sumatra` (printer.rs lines 742-795):
`ensure_sumatra_available` (its `.error` covers directory-creation, download
and write failures) and the SumatraPDF process outcome. -/
structure SumatraEnv where
  ensure : Except String String
  run : Except String CmdResult

/-- `print_pdf_sumatra`: provisioning failure and spawn failure propagate; a
non-success exit is the error the source formats from the exit code. -/
def print_pdf_sumatra (env : SumatraEnv) : Except String Unit :=
  match env.ensure with
  | .error e => .error e
  | .ok _ =>
    match env.run with
    | .error e => .error e
    | .ok out =>
      if !out.success then .error "SumatraPDF print failed"
      else .ok ()

/-- The backends the spec's backend-selection chain names for Windows.
`osNative` is the spec's "OS-native fallback" (handing the file to the
operating system's default document-print action); it is part of the spec's
vocabulary and needed to state claim C1. -/
inductive Backend
  | ghostscript
  | sumatra
  | osNative
deriving Repr, DecidableEq

/-- Environment for `print_pdf_windows`: the Ghostscript resolution probe
(`find_ghostscript_path`) and the two path environments. -/
structure WinPrintEnv where
  gsResolved : Option String
  gs : GsEnv
  sumatra : SumatraEnv

/-- `print_pdf_windows` (printer.rs lines 799-813): use the Ghostscript path
when `find_ghostscript_path` resolves, otherwise the SumatraPDF path.  The
`.ok` value records which backend completed the job. -/
def print_pdf_windows (printer_name : Option String) (copies : Nat)
    (env : WinPrintEnv) : Except String Backend :=
  match env.gsResolved with
  | some _ =>
    (print_pdf_ghostscript printer_name copies env.gs).map
      (fun _ => Backend.ghostscript)
  | none =>
    (print_pdf_sumatra env.sumatra).map (fun _ => Backend.sumatra)

/-! ## cert_manager.rs — trust cache -/

/-- The process-wide trust cache (cert_manager.rs lines 19-20): the cached
boolean and the Unix-seconds timestamp of the last refresh.  The initial
state of the statics is `⟨false, 0⟩`. -/
structure TrustCache where
  value : Bool
  time : Nat
deriving Repr, DecidableEq

/-- `CACHE_TTL_SECS` (cert_manager.rs line 21). -/
def CACHE_TTL_SECS : Nat := 30

/-- `is_cert_trusted` (cert_manager.rs lines 45-80): within the TTL of the
last refresh, answer from the cache; otherwise run the PowerShell store query
(`ps` is its spawn outcome; `.ok` carries the captured stdout — the exit
status is not consulted), interpret the trimmed lowercased stdout, and
refresh the cache.  Nat subtraction models `saturating_sub`.  Returns the
result together with the new cache state. -/
def is_cert_trusted (st : TrustCache) (now : Nat) (ps : Except String String) :
    Except String Bool × TrustCache :=
  if now - st.time < CACHE_TTL_SECS then
    (.ok st.value, st)
  else
    match ps with
    | .error e => (.error ("Failed to run PowerShell: " ++ e), st)
    | .ok stdout =>
      let result := rust_to_lowercase (rust_trim stdout) == "true"
      (.ok result, ⟨result, now⟩)

/-- `invalidate_cert_cache` (cert_manager.rs lines 37-39): zero the refresh
timestamp, leaving the cached boolean in place. -/
def invalidate_cert_cache (st : TrustCache) : TrustCache :=
  { st with time := 0 }

/-- `install_cert_current_user` (cert_manager.rs lines 84-152): fail when the
certificate file is missing; otherwise run the PowerShell install (spawn
failure propagates); success requires a zero exit and "SUCCESS" in stdout and
invalidates the trust cache; anything else leaves the cache untouched and
fails. -/
def install_cert_current_user (certExists : Bool) (ps : Except String CmdResult)
    (st : TrustCache) : Except String Unit × TrustCache :=
  if !certExists then
    (.error "Certificate not found. Please restart the application.", st)
  else
    match ps with
    | .error e => (.error ("Failed to run PowerShell: " ++ e), st)
    | .ok out =>
      if out.success && rust_contains out.stdout "SUCCESS" then
        (.ok (), invalidate_cert_cache st)
      else
        (.error "Installation failed", st)

/-! ## Helper lemmas about the handle_print field loop -/

/-- A field not named "pdf" never fails the loop and leaves the pdf slot
unchanged. -/
lemma handle_print_field_not_pdf (st : Option String × PrintOptions)
    (f : MPField) (hf : (f.name == "pdf") = false) :
    ∃ o, handle_print_field st f = Except.ok (st.1, o) := by
  unfold handle_print_field
  rw [hf]
  simp only [Bool.false_eq_true, if_false]
  split
  · split
    · exact ⟨_, rfl⟩
    · exact ⟨st.2, rfl⟩
  · split
    · split
      · exact ⟨_, rfl⟩
      · exact ⟨st.2, rfl⟩
    · exact ⟨st.2, rfl⟩

/-- The field loop always succeeds when no field is named "pdf", and its pdf
slot keeps the initial value. -/
lemma foldlM_no_pdf (fields : List MPField) :
    ∀ st, (∀ f ∈ fields, (f.name == "pdf") = false) →
      ∃ res, fields.foldlM handle_print_field st = Except.ok res ∧ res.1 = st.1 := by
  induction fields with
  | nil => exact fun st _ => ⟨st, rfl, rfl⟩
  | cons f fs ih =>
    intro st h
    obtain ⟨o, ho⟩ := handle_print_field_not_pdf st f (h f (by simp))
    obtain ⟨res, hres, hfst⟩ := ih (st.1, o) (fun g hg => h g (by simp [hg]))
    refine ⟨res, ?_, hfst⟩
    rw [List.foldlM_cons, ho]
    simpa using hres

/-- One loop step keeps the copies option at `none` when every "copies" field
carries unparseable (or unreadable) text. -/
lemma handle_print_field_copies_none (st : Option String × PrintOptions)
    (f : MPField) (res : Option String × PrintOptions)
    (h : handle_print_field st f = Except.ok res)
    (hbad : f.name = "copies" → ∀ t, f.textResult = some t → rust_parse_u32 t = none)
    (hc : st.2.copies = none) : res.2.copies = none := by
  unfold handle_print_field at h
  by_cases hpdf : (f.name == "pdf") = true
  · rw [if_pos hpdf] at h
    cases hb : f.bytesResult with
    | ok b => rw [hb] at h; cases h; simpa using hc
    | error e => rw [hb] at h; cases h
  · rw [if_neg hpdf] at h
    by_cases hprn : (f.name == "printer") = true
    · rw [if_pos hprn] at h
      cases ht : f.textResult with
      | some t => rw [ht] at h; cases h; simpa using hc
      | none => rw [ht] at h; cases h; exact hc
    · rw [if_neg hprn] at h
      by_cases hcp : (f.name == "copies") = true
      · rw [if_pos hcp] at h
        cases ht : f.textResult with
        | some t =>
          rw [ht] at h; cases h
          simpa using hbad (by simpa using hcp) t ht
        | none => rw [ht] at h; cases h; exact hc
      · rw [if_neg hcp] at h; cases h; exact hc

/-- The field loop keeps the copies option at `none` when every "copies"
field carries unparseable (or unreadable) text. -/
lemma foldlM_copies_none (fields : List MPField) :
    ∀ st res, st.2.copies = none →
      (∀ f ∈ fields, f.name = "copies" →
        ∀ t, f.textResult = some t → rust_parse_u32 t = none) →
      fields.foldlM handle_print_field st = Except.ok res → res.2.copies = none := by
  induction fields with
  | nil => intro st res h _ heq; cases heq; exact h
  | cons f fs ih =>
    intro st res h hbad heq
    rw [List.foldlM_cons] at heq
    cases hstep : handle_print_field st f with
    | error r =>
      rw [hstep] at heq
      exact Except.noConfusion heq
    | ok st2 =>
      rw [hstep] at heq
      have h2 : st2.2.copies = none :=
        handle_print_field_copies_none st f st2 hstep (hbad f (by simp)) h
      exact ih st2 res h2 (fun g hg => hbad g (by simp [hg])) heq

/-- Inverting a successful `parse_print_request`: the loop succeeded with the
returned state and the trailing stream was clean. -/
lemma parse_print_request_ok (body : MultipartBody)
    (pdf : Option String) (o : PrintOptions)
    (h : parse_print_request body = Except.ok (pdf, o)) :
    body.fields.foldlM handle_print_field (none, {}) = Except.ok (pdf, o)
    ∧ body.trailingErr = none := by
  unfold parse_print_request at h
  cases hf : body.fields.foldlM handle_print_field (none, {}) with
  | error r => rw [hf] at h; cases h
  | ok st =>
    rw [hf] at h
    cases ht : body.trailingErr with
    | some e => rw [ht] at h; cases h
    | none => rw [ht] at h; cases h; exact ⟨rfl, rfl⟩

/-! ## Claim C6 -/

/-- Claim C6 counterexample: a `/print` request whose `copies` field is the
text "0" is accepted and hands the dispatch engine a copy count of 0,
violating the claimed ≥ 1 bound.  The third conjunct instruments the
dispatch function to show the value it actually receives. -/
theorem c6_copies_zero_counterexample :
    parse_print_request ⟨[⟨"pdf", .ok "P", none⟩, ⟨"copies", .ok "0", some "0"⟩], none⟩
      = .ok (some "P", ⟨none, some 0⟩)
    ∧ copies_arg ⟨none, some 0⟩ = 0
    ∧ handle_print ⟨[⟨"pdf", .ok "P", none⟩, ⟨"copies", .ok "0", some "0"⟩], none⟩
        (fun _ _ c => if c = 0 then Except.ok "dispatched-zero" else Except.error "other")
      = (200, ⟨true, none, some "dispatched-zero"⟩) :=
  ⟨rfl, rfl, rfl⟩

/-- Claim C6 (amended): the copy count handed to the dispatch engine equals 1
whenever the `copies` field is omitted; when a `copies` value was parsed it is
handed through unchanged — including 0, so the ≥ 1 bound does not hold for
every accepted request. -/
theorem c6_copies_default_amended (body : MultipartBody) (pdf : Option String)
    (o : PrintOptions) (h : parse_print_request body = Except.ok (pdf, o)) :
    ((∀ f ∈ body.fields, f.name ≠ "copies") → copies_arg o = 1)
    ∧ (∀ n, o.copies = some n → copies_arg o = n) := by
  constructor
  · intro hnone
    have hfold := (parse_print_request_ok body pdf o h).1
    have : o.copies = none := by
      have := foldlM_copies_none body.fields (none, {}) (pdf, o) rfl
        (fun f hf hc => absurd hc (hnone f hf)) hfold
      simpa using this
    simp [copies_arg, this]
  · intro n hn
    simp [copies_arg, hn]

/-- Claim C6 witness: a request with only a pdf field is dispatched with
exactly 1 copy. -/
theorem c6_copies_default_witness :
    copies_arg ⟨none, none⟩ = 1 := by
  have h := c6_copies_default_amended ⟨[⟨"pdf", Except.ok "P", none⟩], none⟩
    (some "P") ⟨none, none⟩ rfl
  refine h.1 ?_
  intro f hf
  rw [List.mem_singleton] at hf
  subst hf
  decide

/-! ## Claim C8 -/

/-- Claim C8: a well-formed multipart body with no `pdf` field — whatever
other fields it carries — yields status 400 with `success = false` and the
"No PDF data provided" message, and the dispatch function is never consulted
(the response is the same constant for every dispatch function). -/
theorem c8_missing_pdf_rejected (body : MultipartBody)
    (print_pdf : String → Option String → Nat → Except String String)
    (hnopdf : ∀ f ∈ body.fields, f.name ≠ "pdf")
    (hclean : body.trailingErr = none) :
    handle_print body print_pdf = (400, ⟨false, some "No PDF data provided", none⟩) := by
  obtain ⟨res, hres, hfst⟩ := foldlM_no_pdf body.fields (none, {})
    (fun f hf => by simpa using hnopdf f hf)
  unfold handle_print parse_print_request
  rw [hres, hclean]
  obtain ⟨r1, r2⟩ := res
  simp only at hfst
  subst hfst
  rfl

/-- Claim C8 witness: a body holding only printer and copies fields is
rejected with the no-document message. -/
theorem c8_missing_pdf_rejected_witness :
    handle_print ⟨[⟨"printer", Except.ok "HP", some "HP"⟩,
                   ⟨"copies", Except.ok "2", some "2"⟩], none⟩
      (fun _ _ _ => Except.ok "jid")
      = (400, ⟨false, some "No PDF data provided", none⟩) := by
  refine c8_missing_pdf_rejected _ _ ?_ rfl
  intro f hf
  rw [List.mem_cons] at hf
  rcases hf with hf | hf
  · subst hf; decide
  · rw [List.mem_singleton] at hf; subst hf; decide

/-! ## Claim C10 -/

/-- Claim C10: when every `copies` field of an accepted request fails to
parse as an unsigned integer (or fails to read), the failure is discarded:
the request is not rejected for it, the copy count handed to dispatch is the
default 1, and a successful dispatch yields the 200 success response. -/
theorem c10_unparseable_copies_defaults (body : MultipartBody)
    (pdf : Option String) (o : PrintOptions)
    (print_pdf : String → Option String → Nat → Except String String)
    (h : parse_print_request body = Except.ok (pdf, o))
    (hbad : ∀ f ∈ body.fields, f.name = "copies" →
      ∀ t, f.textResult = some t → rust_parse_u32 t = none) :
    copies_arg o = 1
    ∧ (∀ p jid, pdf = some p → print_pdf p o.printer 1 = Except.ok jid →
        handle_print body print_pdf = (200, ⟨true, none, some jid⟩)) := by
  have hfold := (parse_print_request_ok body pdf o h).1
  have hnone : o.copies = none := by
    have := foldlM_copies_none body.fields (none, {}) (pdf, o) rfl hbad hfold
    simpa using this
  have harg : copies_arg o = 1 := by simp [copies_arg, hnone]
  refine ⟨harg, ?_⟩
  intro p jid hp hdispatch
  subst hp
  simp [handle_print, h, harg, hdispatch]

/-- Claim C10 witness: a request carrying `copies = "abc"` is dispatched with
1 copy and succeeds. -/
theorem c10_unparseable_copies_defaults_witness :
    handle_print ⟨[⟨"pdf", Except.ok "P", none⟩,
                   ⟨"copies", Except.ok "abc", some "abc"⟩], none⟩
      (fun _ _ c => if c = 1 then Except.ok "J" else Except.error "bad count")
      = (200, ⟨true, none, some "J"⟩) := by
  have h := c10_unparseable_copies_defaults
    ⟨[⟨"pdf", Except.ok "P", none⟩, ⟨"copies", Except.ok "abc", some "abc"⟩], none⟩
    (some "P") ⟨none, none⟩
    (fun _ _ c => if c = 1 then Except.ok "J" else Except.error "bad count")
    rfl ?_
  · exact h.2 "P" "J" rfl rfl
  · intro f hf hc t ht
    rw [List.mem_cons] at hf
    rcases hf with hf | hf
    · subst hf; exact absurd hc (by decide)
    · rw [List.mem_singleton] at hf; subst hf
      cases ht; decide

/-! ## Claim C4 -/

/-- Claim C4 counterexample: both certificate files exist, read fine and are
non-empty but are not PEM-framed, yet the stored bytes are returned instead
of a freshly generated pair — PEM framing is not part of the load condition. -/
theorem c4_non_pem_loaded_counterexample :
    get_or_create_certificate ⟨true, true, .ok "not pem bytes", .ok "junk"⟩
      (Except.ok ("GENERATED-CERT", "GENERATED-KEY"))
      = Except.ok ("not pem bytes", "junk")
    ∧ spec_pem_framed "not pem bytes" = false
    ∧ spec_well_formed "not pem bytes" = false :=
  ⟨rfl, rfl, rfl⟩

/-- Claim C4 (amended): the stored bundle is loaded exactly when both files
exist, both reads succeed, and both contents are non-empty — PEM framing is
not checked; in every other on-disk state the generation outcome (a fresh
self-signed pair whose subject-alt-names are localhost and the loopback
address) is returned instead of the stored bytes. -/
theorem c4_certificate_load_amended (disk : CertDisk)
    (gen : Except String (String × String)) :
    (∀ c k, disk.certExists = true → disk.keyExists = true →
      disk.certRead = Except.ok c → disk.keyRead = Except.ok k →
      bytes_is_empty c = false → bytes_is_empty k = false →
      get_or_create_certificate disk gen = Except.ok (c, k))
    ∧ (disk.certExists = false → get_or_create_certificate disk gen = gen)
    ∧ (disk.keyExists = false → get_or_create_certificate disk gen = gen)
    ∧ (disk.certRead = Except.error () → get_or_create_certificate disk gen = gen)
    ∧ (∀ c, disk.certRead = Except.ok c → bytes_is_empty c = true →
        get_or_create_certificate disk gen = gen)
    ∧ certificate_subject_alt_names = ["localhost", "127.0.0.1"] := by
  refine ⟨?_, ?_, ?_, ?_, ?_, rfl⟩
  · intro c k h1 h2 h3 h4 h5 h6
    simp [get_or_create_certificate, h1, h2, h3, h4, h5, h6]
  · intro h
    simp [get_or_create_certificate, h]
  · intro h
    simp [get_or_create_certificate, h]
  · intro h
    cases hce : disk.certExists <;> cases hke : disk.keyExists <;>
      cases hkr : disk.keyRead <;>
      simp [get_or_create_certificate, hce, hke, h, hkr]
  · intro c h1 h2
    cases hce : disk.certExists <;> cases hke : disk.keyExists <;>
      cases hkr : disk.keyRead <;>
      simp [get_or_create_certificate, hce, hke, h1, h2, hkr]

/-- Claim C4 witness: a pair of existing, readable, non-empty files is loaded
from disk as-is. -/
theorem c4_certificate_load_witness :
    get_or_create_certificate ⟨true, true, .ok "CERT", .ok "KEY"⟩
      (Except.error "generation unused") = Except.ok ("CERT", "KEY") :=
  (c4_certificate_load_amended ⟨true, true, .ok "CERT", .ok "KEY"⟩
    (Except.error "generation unused")).1 "CERT" "KEY" rfl rfl rfl rfl rfl rfl

/-! ## Claim C3 -/

/-- Claim C3 counterexample: when the `lpstat` enumeration command cannot be
spawned, `list_printers_unix` returns the spawn error rather than a (possibly
empty) printer list — the `?` on `output()` propagates it. -/
theorem c3_spawn_failure_counterexample :
    list_printers_unix (Except.error "No such file or directory (os error 2)")
      = Except.error "No such file or directory (os error 2)" := rfl

/-- Claim C3 (amended): once the enumeration command has been spawned and
run, enumeration never raises — a non-success exit yields the empty list and
every other outcome yields some list — on both platform implementations; but
a failure to spawn the command itself propagates as an error (which the HTTP
handlers flatten with `unwrap_or_default`). -/
theorem c3_enumeration_no_raise_amended (out : CmdResult) :
    (out.success = false → list_printers_unix (Except.ok out) = Except.ok [])
    ∧ (∀ e, list_printers_unix (Except.ok out) ≠ Except.error e)
    ∧ (∀ env : WinEnumEnv, env.cmd = Except.ok out →
        (out.success = false → list_printers_windows env = Except.ok [])
        ∧ ∀ e, list_printers_windows env ≠ Except.error e) := by
  refine ⟨?_, ?_, ?_⟩
  · intro h
    simp [list_printers_unix, h]
  · intro e
    cases hs : out.success <;> simp [list_printers_unix, hs]
  · intro env hcmd
    have hex : ∃ l, list_printers_windows env = Except.ok l := by
      simp only [list_printers_windows, hcmd]
      by_cases hs : (!out.success) = true
      · rw [if_pos hs]; exact ⟨[], rfl⟩
      · rw [if_neg hs]
        by_cases h1 : rust_starts_with (rust_trim out.stdout) "[" = true
        · rw [if_pos h1]; exact ⟨_, rfl⟩
        · rw [if_neg h1]
          by_cases h2 : rust_starts_with (rust_trim out.stdout) "\x7b" = true
          · rw [if_pos h2]
            cases hpo : env.parsedObject
            · exact ⟨[], rfl⟩
            · exact ⟨_, rfl⟩
          · rw [if_neg h2]; exact ⟨[], rfl⟩
    constructor
    · intro h
      simp [list_printers_windows, hcmd, h]
    · intro e
      obtain ⟨l, hl⟩ := hex
      rw [hl]
      simp

/-- Claim C3 witness: a failed (but spawned) enumeration yields the empty
list on both platforms. -/
theorem c3_enumeration_no_raise_witness :
    list_printers_unix (Except.ok ⟨false, "", ""⟩) = Except.ok []
    ∧ list_printers_windows ⟨Except.ok ⟨false, "", ""⟩, none, none⟩ = Except.ok [] := by
  have h := c3_enumeration_no_raise_amended ⟨false, "", ""⟩
  exact ⟨h.1 rfl, (h.2.2 ⟨Except.ok ⟨false, "", ""⟩, none, none⟩ rfl).1 rfl⟩

/-! ## Claim C7 helper lemmas -/

/-- The lpstat scan only ever appends descriptors with `is_default = false`. -/
lemma lpstat_foldl_not_default (lines : List String) :
    ∀ st : LpstatScan, (∀ p ∈ st.printers, p.is_default = false) →
      ∀ p ∈ (lines.foldl lpstat_step st).printers, p.is_default = false := by
  induction lines with
  | nil => exact fun st h => h
  | cons l ls ih =>
    intro st h
    apply ih
    intro p hp
    unfold lpstat_step at hp
    by_cases h1 : rust_starts_with l "printer " = true
    · rw [if_pos h1] at hp
      by_cases h2 : (rust_split_whitespace l).length ≥ 2
      · rw [if_pos h2] at hp
        simp only [List.mem_append, List.mem_singleton] at hp
        rcases hp with hp | hp
        · exact h p hp
        · subst hp; rfl
      · rw [if_neg h2] at hp
        exact h p hp
    · rw [if_neg h1] at hp
      by_cases h3 : rust_starts_with l "system default destination:" = true
      · rw [if_pos h3] at hp
        exact h p hp
      · rw [if_neg h3] at hp
        exact h p hp

/-- Marking preserves names. -/
lemma mark_default_name (d : String) (p : PrinterInfo) :
    (mark_default d p).name = p.name := by
  unfold mark_default; split <;> rfl

/-- On a list of non-default descriptors, counting defaults after the marking
pass counts the descriptors whose name matches the default destination. -/
lemma countP_mark_default (d : String) (l : List PrinterInfo)
    (h : ∀ p ∈ l, p.is_default = false) :
    (l.map (mark_default d)).countP (fun p => p.is_default)
      = l.countP (fun p => p.name == d) := by
  induction l with
  | nil => rfl
  | cons p ps ih =>
    rw [List.map_cons, List.countP_cons, List.countP_cons,
      ih (fun q hq => h q (by simp [hq]))]
    have hp : p.is_default = false := h p (by simp)
    unfold mark_default
    by_cases hd : (p.name == d) = true
    · rw [if_pos hd]; simp [hd]
    · rw [if_neg hd]
      simp only [hp, hd]

/-- With pairwise-distinct names, at most one descriptor can match any given
name. -/
lemma countP_name_le_one (l : List PrinterInfo) (d : String)
    (h : (l.map (fun p => p.name)).Nodup) :
    l.countP (fun p => p.name == d) ≤ 1 := by
  induction l with
  | nil => simp
  | cons p ps ih =>
    rw [List.map_cons, List.nodup_cons] at h
    rw [List.countP_cons]
    by_cases hd : (p.name == d) = true
    · have hz : ps.countP (fun q => q.name == d) = 0 := by
        rw [List.countP_eq_zero]
        intro q hq hqd
        apply h.1
        rw [List.mem_map]
        refine ⟨q, hq, ?_⟩
        have h1 : p.name = d := by simpa using hd
        have h2 : q.name = d := by simpa using hqd
        rw [h1, h2]
      simp [hz, hd]
    · simp only [hd, if_false]
      simpa using ih h.2

/-! ## Claim C7 -/

/-- Claim C7 counterexample: an lpstat report that lists the same printer
name twice and designates it as the default produces two descriptors with
`is_default = true`. -/
theorem c7_duplicate_names_counterexample :
    list_printers_unix (Except.ok ⟨true,
        "printer Foo is idle.\nprinter Foo is idle.\nsystem default destination: Foo",
        ""⟩)
      = Except.ok [⟨"Foo", true, "ready"⟩, ⟨"Foo", true, "ready"⟩]
    ∧ ([⟨"Foo", true, "ready"⟩, ⟨"Foo", true, "ready"⟩] : List PrinterInfo).countP
        (fun p => p.is_default) = 2 :=
  ⟨rfl, by decide⟩

/-- Claim C7 (amended): at most one descriptor is default provided the OS
report itself designates at most one — on the Unix path, whenever the
produced descriptor names are pairwise distinct; on the Windows path,
whenever at most one deserialized entry carries `Default = true` (the flag is
copied verbatim). -/
theorem c7_at_most_one_default_amended :
    (∀ (out : CmdResult) (l : List PrinterInfo),
      list_printers_unix (Except.ok out) = Except.ok l →
      (l.map (fun p => p.name)).Nodup →
      l.countP (fun p => p.is_default) ≤ 1)
    ∧ (∀ ps : List WinPrinter,
        ps.countP (fun p => p.Default == some true) ≤ 1 →
        (ps.map win_printer_to_info).countP (fun p => p.is_default) ≤ 1) := by
  constructor
  · intro out l heq hnodup
    simp only [list_printers_unix] at heq
    by_cases hs : (!out.success) = true
    · rw [if_pos hs] at heq
      rw [Except.ok.injEq] at heq
      subst heq
      simp
    · rw [if_neg hs] at heq
      rw [Except.ok.injEq] at heq
      subst heq
      set scan := (rust_lines out.stdout).foldl lpstat_step ⟨[], ""⟩ with hscan
      have hfalse : ∀ p ∈ scan.printers, p.is_default = false :=
        lpstat_foldl_not_default (rust_lines out.stdout) ⟨[], ""⟩ (by simp)
      rw [countP_mark_default scan.default_printer scan.printers hfalse]
      apply countP_name_le_one
      have hmaps :
          (scan.printers.map (mark_default scan.default_printer)).map
              (fun p => p.name)
            = scan.printers.map (fun p => p.name) := by
        rw [List.map_map]
        exact List.map_congr_left (fun p _ => mark_default_name _ p)
      rw [hmaps] at hnodup
      exact hnodup
  · intro ps hps
    rw [List.countP_map]
    have hpred : ∀ wp ∈ ps,
        ((fun p => p.is_default) ∘ win_printer_to_info) wp = true
          ↔ (fun p : WinPrinter => p.Default == some true) wp = true := by
      intro wp _
      cases hD : wp.Default with
      | none => simp [win_printer_to_info, hD]
      | some b => cases b <;> simp [win_printer_to_info, hD]
    rw [List.countP_congr hpred]
    exact hps

/-- Claim C7 witness: a two-printer lpstat report with distinct names and a
designated default yields exactly one default descriptor, bounded by 1. -/
theorem c7_at_most_one_default_witness :
    ([⟨"A", false, "ready"⟩, ⟨"B", true, "ready"⟩] : List PrinterInfo).countP
      (fun p => p.is_default) ≤ 1 :=
  (c7_at_most_one_default_amended).1
    ⟨true, "printer A is idle.\nprinter B is idle.\nsystem default destination: B", ""⟩
    [⟨"A", false, "ready"⟩, ⟨"B", true, "ready"⟩] rfl (by decide)

/-! ## Claim C9 -/

/-- Claim C9: for every named target printer on the Unix print path, the lp
argument list is extended by exactly one vendor quality-hint group selected
by case-insensitive substring match on the printer name, inkjet family
first: a name containing "epson" gets Resolution=1200x1200dpi, EPIJ_Qual=307
and EPIJ_Medi=12; otherwise a name containing "hp" or "laserjet" gets
MediaType=labels; otherwise print-quality=5. -/
theorem c9_vendor_quality_groups (pdf_path p : String) (copies : Nat) :
    (rust_contains (rust_to_lowercase p) "epson" = true →
      print_pdf_unix_args pdf_path (some p) copies =
        ["-n", toString copies, "-o", "fit-to-page=false", "-o", "scaling=100",
         "-o", "Resolution=1200x1200dpi", "-o", "EPIJ_Qual=307",
         "-o", "EPIJ_Medi=12", "-d", p, pdf_path])
    ∧ (rust_contains (rust_to_lowercase p) "epson" = false →
       (rust_contains (rust_to_lowercase p) "hp" = true
         ∨ rust_contains (rust_to_lowercase p) "laserjet" = true) →
      print_pdf_unix_args pdf_path (some p) copies =
        ["-n", toString copies, "-o", "fit-to-page=false", "-o", "scaling=100",
         "-o", "MediaType=labels", "-d", p, pdf_path])
    ∧ (rust_contains (rust_to_lowercase p) "epson" = false →
       rust_contains (rust_to_lowercase p) "hp" = false →
       rust_contains (rust_to_lowercase p) "laserjet" = false →
      print_pdf_unix_args pdf_path (some p) copies =
        ["-n", toString copies, "-o", "fit-to-page=false", "-o", "scaling=100",
         "-o", "print-quality=5", "-d", p, pdf_path]) := by
  refine ⟨?_, ?_, ?_⟩
  · intro h
    simp [print_pdf_unix_args, h]
  · intro h1 h2
    rcases h2 with h2 | h2 <;> simp [print_pdf_unix_args, h1, h2]
  · intro h1 h2 h3
    simp [print_pdf_unix_args, h1, h2, h3]

/-- Claim C9 witness: an Epson-named printer receives exactly the Epson
quality group. -/
theorem c9_vendor_quality_groups_witness :
    print_pdf_unix_args "/tmp/job.pdf" (some "EPSON ET-3830") 3 =
      ["-n", toString 3, "-o", "fit-to-page=false", "-o", "scaling=100",
       "-o", "Resolution=1200x1200dpi", "-o", "EPIJ_Qual=307",
       "-o", "EPIJ_Medi=12", "-d", "EPSON ET-3830", "/tmp/job.pdf"] :=
  (c9_vendor_quality_groups "/tmp/job.pdf" "EPSON ET-3830" 3).1 (by decide)

/-! ## Claim C2 -/

/-- Claim C2 counterexample: a failure of the DEVMODE size query (a step of
the device-profile fetch) aborts the job with an error even though every
subsequent print step would succeed — fetch failures are not survived. -/
theorem c2_devmode_fetch_abort_counterexample :
    print_image_with_devmode "EPSON ET-3830" 2
      ⟨Except.ok (), true, 0, 0, ⟨0, 1, 300, 300, 1⟩, 1, id, true, 5, 1, 100⟩
      = Except.error "Failed to get DEVMODE size" := rfl

/-- Claim C2 (amended): only the DEVMODE validation step is failure-proof —
its result is never consulted, so the job proceeds and still succeeds with
whatever profile the driver merge left in the buffer; the mutation is an
infallible in-memory write setting 600 DPI quality/resolution and media type
258; but a failure while fetching the profile (here: the size query) aborts
the job with an error. -/
theorem c2_devmode_failures_amended (printer : String) (copies : Nat)
    (env : DevmodeEnv) :
    (∀ v, print_image_with_devmode printer copies { env with validateResult := v }
        = print_image_with_devmode printer copies env)
    ∧ (env.imageOpen = Except.ok () → env.openPrinterOk = true →
       0 < env.devmodeSize → 0 ≤ env.getDevmodeResult →
       env.createDCOk = true → 0 < env.startDocResult → 0 < env.startPageResult →
       env.stretchResult ≠ 0 →
       print_image_with_devmode printer copies env
         = Except.ok (env.driverMerge (mutate_devmode env.fetchedDevmode copies)))
    ∧ (env.imageOpen = Except.ok () → env.openPrinterOk = true →
       env.devmodeSize ≤ 0 →
       print_image_with_devmode printer copies env
         = Except.error "Failed to get DEVMODE size")
    ∧ (∀ d : Devmode, (mutate_devmode d copies).dmPrintQuality = 600
        ∧ (mutate_devmode d copies).dmYResolution = 600
        ∧ (mutate_devmode d copies).dmMediaType = 258) := by
  refine ⟨?_, ?_, ?_, ?_⟩
  · intro v
    cases env
    rfl
  · intro h1 h2 h3 h4 h5 h6 h7 h8
    simp [print_image_with_devmode, h1, h2, h5, h8,
      not_le.mpr h3, not_lt.mpr h4, not_le.mpr h6, not_le.mpr h7]
  · intro h1 h2 h3
    simp [print_image_with_devmode, h1, h2, h3]
  · intro d
    exact ⟨rfl, rfl, rfl⟩

/-- Claim C2 witness: with a failing validation result (-7) but successful
fetch and print steps, the job completes and returns the merged profile. -/
theorem c2_devmode_failures_witness :
    print_image_with_devmode "HP LaserJet" 2
      ⟨Except.ok (), true, 220, 0, ⟨0, 1, 300, 300, 1⟩, -7, id, true, 5, 1, 100⟩
      = Except.ok (mutate_devmode ⟨0, 1, 300, 300, 1⟩ 2) :=
  (c2_devmode_failures_amended "HP LaserJet" 2
      ⟨Except.ok (), true, 220, 0, ⟨0, 1, 300, 300, 1⟩, -7, id, true, 5, 1, 100⟩).2.1
    rfl rfl (by decide) (by decide) rfl (by decide) (by decide) (by decide)

/-! ## Claim C1 -/

/-- Claim C1 counterexample: with Ghostscript unresolved and SumatraPDF
provisioning failing — no specialized tool available at all — the Windows
dispatch fails with the provisioning error; it is not handed to an OS-native
default print action. -/
theorem c1_no_os_fallback_counterexample :
    print_pdf_windows (some "HP LaserJet") 1
      ⟨none,
       ⟨Except.ok "unused", ⟨Except.ok ⟨true, "", ""⟩, true⟩,
        ⟨Except.ok (), true, 220, 0, ⟨0, 1, 300, 300, 1⟩, 1, id, true, 5, 1, 100⟩⟩,
       ⟨Except.error "Failed to download SumatraPDF: HTTP 404",
        Except.ok ⟨true, "", ""⟩⟩⟩
      = Except.error "Failed to download SumatraPDF: HTTP 404"
    ∧ print_pdf_windows (some "HP LaserJet") 1
      ⟨none,
       ⟨Except.ok "unused", ⟨Except.ok ⟨true, "", ""⟩, true⟩,
        ⟨Except.ok (), true, 220, 0, ⟨0, 1, 300, 300, 1⟩, 1, id, true, 5, 1, 100⟩⟩,
       ⟨Except.error "Failed to download SumatraPDF: HTTP 404",
        Except.ok ⟨true, "", ""⟩⟩⟩
      ≠ Except.ok Backend.osNative := by
  refine ⟨rfl, ?_⟩
  intro h
  exact Except.noConfusion h

/-- Claim C1 (amended): Windows backend selection is first-available-wins
between exactly two backends — the Ghostscript path whenever the tool
resolves, otherwise the SumatraPDF path (downloaded on demand); no job is
ever handed to an OS-native default print action, and when SumatraPDF cannot
be provisioned either, the job fails with that error. -/
theorem c1_backend_selection_amended (pn : Option String) (c : Nat)
    (env : WinPrintEnv) :
    (∀ b, print_pdf_windows pn c env = Except.ok b →
      (b = Backend.ghostscript ↔ env.gsResolved.isSome = true)
      ∧ (b = Backend.sumatra ↔ env.gsResolved = none)
      ∧ b ≠ Backend.osNative)
    ∧ (env.gsResolved = none → ∀ e, env.sumatra.ensure = Except.error e →
        print_pdf_windows pn c env = Except.error e) := by
  constructor
  · intro b hb
    cases hgs : env.gsResolved with
    | some p =>
      simp only [print_pdf_windows, hgs] at hb
      cases hg : print_pdf_ghostscript pn c env.gs with
      | error e => rw [hg] at hb; exact Except.noConfusion hb
      | ok u =>
        rw [hg] at hb
        have hbg : b = Backend.ghostscript := by
          have := hb
          simp [Except.map] at this
          exact this.symm
        subst hbg
        refine ⟨by simp, by simp [hgs], by decide⟩
    | none =>
      simp only [print_pdf_windows, hgs] at hb
      cases hg : print_pdf_sumatra env.sumatra with
      | error e => rw [hg] at hb; exact Except.noConfusion hb
      | ok u =>
        rw [hg] at hb
        have hbs : b = Backend.sumatra := by
          have := hb
          simp [Except.map] at this
          exact this.symm
        subst hbs
        refine ⟨by simp [hgs], by simp, by decide⟩
  · intro hgs e he
    simp [print_pdf_windows, hgs, print_pdf_sumatra, he, Except.map]

/-- Claim C1 witness: with Ghostscript unresolved, a SumatraPDF provisioning
failure is the job's outcome. -/
theorem c1_backend_selection_witness :
    print_pdf_windows (some "HP") 1
      ⟨none,
       ⟨Except.ok "d", ⟨Except.ok ⟨true, "", ""⟩, true⟩,
        ⟨Except.ok (), true, 1, 0, ⟨0, 0, 0, 0, 0⟩, 0, id, true, 1, 1, 1⟩⟩,
       ⟨Except.error "download failed", Except.ok ⟨true, "", ""⟩⟩⟩
      = Except.error "download failed" :=
  (c1_backend_selection_amended (some "HP") 1
      ⟨none,
       ⟨Except.ok "d", ⟨Except.ok ⟨true, "", ""⟩, true⟩,
        ⟨Except.ok (), true, 1, 0, ⟨0, 0, 0, 0, 0⟩, 0, id, true, 1, 1, 1⟩⟩,
       ⟨Except.error "download failed", Except.ok ⟨true, "", ""⟩⟩⟩).2
    rfl "download failed" rfl

/-! ## Claim C5 -/

/-- Claim C5 counterexample: the TTL window is anchored at the cache refresh,
not at the previous call.  After a refresh at t = 100, a cache-hit call at
t = 120 and a second call at t = 140 are only 20 s apart — inside the claimed
30 s window — yet the t = 140 call re-queries the store and returns the
changed value instead of the cached one. -/
theorem c5_ttl_window_counterexample :
    is_cert_trusted ⟨false, 0⟩ 100 (Except.ok "true") = (Except.ok true, ⟨true, 100⟩)
    ∧ is_cert_trusted ⟨true, 100⟩ 120 (Except.ok "false") = (Except.ok true, ⟨true, 100⟩)
    ∧ is_cert_trusted ⟨true, 100⟩ 140 (Except.ok "false") = (Except.ok false, ⟨false, 140⟩) :=
  ⟨rfl, rfl, rfl⟩

/-- Claim C5 (amended): calls within the 30 s TTL window measured from the
last cache refresh (a call that actually queried the store) return the
refreshed boolean without consulting the store, whatever the store now says;
and a successful install zeroes the refresh timestamp without touching the
cached value, so the next check (at any wall-clock time at least one TTL past
the epoch) re-queries the store and reflects its current state. -/
theorem c5_trust_cache_amended :
    (∀ (st : TrustCache) (t1 : Nat) (s : String) (v : Bool) (st1 : TrustCache),
      ¬(t1 - st.time < CACHE_TTL_SECS) →
      is_cert_trusted st t1 (Except.ok s) = (Except.ok v, st1) →
      st1 = ⟨v, t1⟩
      ∧ ∀ (t2 : Nat) (q : Except String String), t2 - t1 < CACHE_TTL_SECS →
          is_cert_trusted st1 t2 q = (Except.ok v, st1))
    ∧ (∀ (st : TrustCache) (certE : Bool) (ps : Except String CmdResult)
        (st2 : TrustCache),
        install_cert_current_user certE ps st = (Except.ok (), st2) →
        st2.time = 0 ∧ st2.value = st.value
        ∧ ∀ (now : Nat) (s : String), CACHE_TTL_SECS ≤ now →
            is_cert_trusted st2 now (Except.ok s)
              = (Except.ok (rust_to_lowercase (rust_trim s) == "true"),
                 ⟨rust_to_lowercase (rust_trim s) == "true", now⟩)) := by
  constructor
  · intro st t1 s v st1 httl heq
    unfold is_cert_trusted at heq
    rw [if_neg httl] at heq
    rw [Prod.mk.injEq, Except.ok.injEq] at heq
    obtain ⟨hv, hst⟩ := heq
    subst hv
    subst hst
    refine ⟨rfl, ?_⟩
    intro t2 q ht2
    unfold is_cert_trusted
    rw [if_pos ht2]
  · intro st certE ps st2 heq
    cases certE with
    | false =>
      simp [install_cert_current_user] at heq
    | true =>
      cases ps with
      | error e =>
        simp [install_cert_current_user] at heq
      | ok out =>
        simp only [install_cert_current_user, Bool.not_true, Bool.false_eq_true,
          if_false] at heq
        by_cases hok : (out.success && rust_contains out.stdout "SUCCESS") = true
        · rw [if_pos hok] at heq
          rw [Prod.mk.injEq] at heq
          have hst2 : invalidate_cert_cache st = st2 := heq.2
          subst hst2
          refine ⟨rfl, rfl, ?_⟩
          intro now s hnow
          unfold is_cert_trusted
          rw [if_neg (by
            simp only [invalidate_cert_cache, Nat.sub_zero]
            exact not_lt.mpr hnow)]
        · rw [if_neg hok] at heq
          rw [Prod.mk.injEq] at heq
          exact absurd heq.1 (by simp)

/-- Claim C5 witness: a call 10 s after a refresh answers from the cache even
when the store query would now fail; after a successful install, a check 100 s
past the epoch re-queries and reports the store's new answer. -/
theorem c5_trust_cache_witness :
    is_cert_trusted ⟨true, 50⟩ 60 (Except.error "store changed")
      = (Except.ok true, ⟨true, 50⟩)
    ∧ is_cert_trusted ⟨true, 0⟩ 100 (Except.ok "false")
      = (Except.ok false, ⟨false, 100⟩) := by
  have h1 := (c5_trust_cache_amended).1 ⟨false, 0⟩ 50 "true" true ⟨true, 50⟩
    (by decide) rfl
  have h2 := (c5_trust_cache_amended).2 ⟨true, 77⟩ true
    (Except.ok ⟨true, "SUCCESS", ""⟩) ⟨true, 0⟩ rfl
  exact ⟨h1.2 60 (Except.error "store changed") (by decide),
         h2.2.2 100 "false" (by decide)⟩
